import Mathlib

/-!
Shallow embedding of `src/client.rs` from the rust-jsonrpc repository:
a JSON-RPC 2.0 client over HTTP. The embedding covers `build_request`,
`send_request`, `do_rpc` and `last_nonce` of `impl Client`, with the
external collaborators (hyper transport, serde serialization) modelled
as explicit parameters, and the repository types `Request`, `Response`
and `Error` (declared outside the provided source file) modelled from
the specification.
-/

namespace JsonRpc

mutual

/-- JSON values (model of `serde_json::value::Value`; numbers are modelled
as integers, which covers every value this client produces or inspects). -/
inductive Json where
  | null
  | bool (b : Bool)
  | num (n : Int)
  | str (s : String)
  | arr (xs : JsonList)
  | obj (fields : JsonFields)

/-- A list of JSON values (a JSON array's elements). -/
inductive JsonList where
  | nil
  | cons (x : Json) (xs : JsonList)

/-- An association list of string keys to JSON values (a JSON object's
fields). -/
inductive JsonFields where
  | nil
  | cons (key : String) (value : Json) (rest : JsonFields)

end

deriving instance DecidableEq for Json
deriving instance DecidableEq for JsonList
deriving instance DecidableEq for JsonFields

/-- Modelled from the spec: the request envelope of §3 — `\x7b method,
params, id, protocol-version marker \x7d` — matching the fields of
`Request` used by `client.rs` (`request.id`, serialized whole). -/
structure Request where
  method : String
  params : Json
  id : Json
  jsonrpc : Option String
  deriving DecidableEq

/-- Modelled from the spec: the response envelope of §3 — id, optional
protocol-version marker, optional result, optional error — matching the
fields of `Response` used by `client.rs` (`response.jsonrpc`,
`response.id`, `response.into_result()`). -/
structure Response where
  id : Json
  jsonrpc : Option String
  result : Option Json
  error : Option Json
  deriving DecidableEq

/-- Kinds of low-level I/O errors (`std::io::ErrorKind`); the two kinds
the retry logic inspects are explicit, every other kind is `other`. -/
inductive IoErrorKind where
  | brokenPipe
  | connectionAborted
  | other (code : Nat)
  deriving DecidableEq

/-- Transport-layer errors (`hyper::error::Error`): an I/O error with a
kind, or any other hyper error. -/
inductive HyperError where
  | io (k : IoErrorKind)
  | other (code : Nat)
  deriving DecidableEq

/-- Modelled from the spec: the error taxonomy of §7 (the `Error` enum of
`error.rs` is not in the provided source). `json` is a serialization /
deserialization failure, `hyper` a transport failure, and `rpc` carries
the server-provided error payload verbatim. -/
inductive Error where
  | json
  | hyper (e : HyperError)
  | versionMismatch
  | nonceMismatch
  | rpc (payload : Json)
  deriving DecidableEq

/-- The headers `send_request` attaches: content-type = JSON always, and
a bearer token when one is configured. -/
structure Headers where
  contentTypeJson : Bool
  bearer : Option String
  deriving DecidableEq

/-- The client handle: endpoint URL, optional bearer token, and the
shared nonce counter (a `u64`, modelled as a natural number reduced
modulo `2^64` at each increment). -/
structure Client where
  url : String
  token : Option String
  nonce : Nat
  deriving DecidableEq

/-- Model of `Client::new`: fresh client with nonce 0. -/
def Client.new (url : String) (token : Option String) : Client :=
  { url := url, token := token, nonce := 0 }

/-- Model of `Client::build_request`: lock the nonce, increment it (a `u64`
increment, i.e. modulo `2^64`), and build a `Request` whose id is the
new nonce value and whose jsonrpc marker is `"2.0"`. Returns the updated
client together with the request (state-passing for the mutation of the
shared counter). -/
def Client.build_request (c : Client) (name : String) (params : Json) :
    Client × Request :=
  let n := (c.nonce + 1) % 2 ^ 64
  ({ c with nonce := n },
   { method := name, params := params, id := Json.num (n : Int),
     jsonrpc := some "2.0" })

/-- Model of `Client::last_nonce`: read the current nonce without incrementing. -/
def Client.last_nonce (c : Client) : Nat :=
  c.nonce

/-- An HTTP response as hyper delivers it: a status code and the raw
body bytes of the stream. `send_request` never reads `status` (the code
comment says so explicitly: "nb we ignore stream.status"). -/
structure HttpResponse where
  status : Nat
  body : List Nat
  deriving DecidableEq

/-- Outcome of one `.send()` attempt on the transport. -/
inductive SendOutcome where
  | ok (stream : HttpResponse)
  | err (e : HyperError)
  deriving DecidableEq

/-- The transport environment: the outcome of the n-th send attempt of
this call (hyper and the network are external collaborators; the
environment chooses each attempt's outcome). -/
def Transport : Type :=
  Nat → SendOutcome

/-- A serializer for requests (`serde_json::to_vec`, an external
collaborator): request to raw bytes. -/
def Serializer : Type :=
  Request → List Nat

/-- A deserializer for response bodies (`serde_json::from_reader`, an
external collaborator): parses a `Response` envelope from a prefix of
the stream and returns it with the bytes remaining on the stream, or
fails. -/
def Deserializer : Type :=
  List Nat → Option (Response × List Nat)

/-- A record of one POST actually sent on the wire: target URL, headers
and body bytes. -/
structure SentRecord where
  url : String
  headers : Headers
  body : List Nat
  deriving DecidableEq

deriving instance DecidableEq for Except

/-- The observable outcome of `send_request`: the returned value, the
trace of sends actually performed, and whether the
`stream.bytes().count()` drain line was executed. -/
structure SendResult where
  result : Except Error Response
  sent : List SentRecord
  drained : Bool
  deriving DecidableEq

/-- The tail of `send_request` after a stream was obtained from a
successful send: deserialize the envelope (failure is a serde error),
drain the stream, then check the jsonrpc version marker and the id. -/
def read_and_validate (deser : Deserializer) (request : Request)
    (stream : HttpResponse) (sent : List SentRecord) : SendResult :=
  match deser stream.body with
  | none => { result := Except.error Error.json, sent := sent, drained := false }
  | some (response, _rest) =>
    if response.jsonrpc ≠ none ∧ response.jsonrpc ≠ some "2.0" then
      { result := Except.error Error.versionMismatch, sent := sent, drained := true }
    else if response.id ≠ request.id then
      { result := Except.error Error.nonceMismatch, sent := sent, drained := true }
    else
      { result := Except.ok response, sent := sent, drained := true }

/-- Model of `Client::send_request`: serialize the request once, build the
headers (content-type JSON, plus bearer token when configured), POST the
bytes; if the first send fails with an I/O error of kind broken-pipe or
connection-aborted, POST the identical bytes and headers once more and
surface a failure of that retry as a Hyper error; any other first-attempt
failure is surfaced as a Hyper error at once. On an obtained stream,
deserialize, drain, and validate version then id. -/
def Client.send_request (c : Client) (ser : Serializer) (deser : Deserializer)
    (transport : Transport) (request : Request) : SendResult :=
  let request_raw := ser request
  let headers : Headers := { contentTypeJson := true, bearer := c.token }
  let retry_headers := headers
  let first : SentRecord := { url := c.url, headers := headers, body := request_raw }
  match transport 0 with
  | SendOutcome.ok stream => read_and_validate deser request stream [first]
  | SendOutcome.err (HyperError.io k) =>
    if k = IoErrorKind.brokenPipe ∨ k = IoErrorKind.connectionAborted then
      let second : SentRecord :=
        { url := c.url, headers := retry_headers, body := request_raw }
      match transport 1 with
      | SendOutcome.ok stream => read_and_validate deser request stream [first, second]
      | SendOutcome.err e2 =>
        { result := Except.error (Error.hyper e2), sent := [first, second],
          drained := false }
    else
      { result := Except.error (Error.hyper (HyperError.io k)), sent := [first],
        drained := false }
  | SendOutcome.err e =>
    { result := Except.error (Error.hyper e), sent := [first], drained := false }

/-- Modelled from the spec: `Response::into_result` (declared outside the
provided source file, used by `do_rpc`), per §4.2 step 10: an error
payload is surfaced verbatim as an RpcError, otherwise the result payload
is returned (its typed decoding, an external concern, is elided). -/
def Response.into_result (r : Response) : Except Error Json :=
  match r.error with
  | some payload => Except.error (Error.rpc payload)
  | none =>
    match r.result with
    | some v => Except.ok v
    | none => Except.error Error.json

/-- Model of `Client::do_rpc`: build a request (incrementing the nonce), send it,
and unwrap the response into a result. Returns the updated client
(state-passing for the nonce) together with the call's outcome. -/
def Client.do_rpc (c : Client) (ser : Serializer) (deser : Deserializer)
    (transport : Transport) (rpc_name : String) (args : Json) :
    Client × Except Error Json :=
  let built := c.build_request rpc_name args
  match (built.1.send_request ser deser transport built.2).result with
  | Except.error e => (built.1, Except.error e)
  | Except.ok response => (built.1, response.into_result)

/-- Iterate `build_request` k times from a client, collecting the ids of
the built requests in order of issue. -/
def build_iter (c : Client) (name : String) (params : Json) : Nat → Client × List Json
  | 0 => (c, [])
  | Nat.succ k =>
    let prev := build_iter c name params k
    let built := prev.1.build_request name params
    (built.1, prev.2 ++ [built.2.id])

/-- The stream `send_request` ends up reading from, when the send phase
succeeds: the first attempt's stream, or the retry's stream when the
first attempt failed with a broken-pipe / connection-aborted I/O error. -/
def received_stream (transport : Transport) : Option HttpResponse :=
  match transport 0 with
  | SendOutcome.ok s => some s
  | SendOutcome.err (HyperError.io k) =>
    if k = IoErrorKind.brokenPipe ∨ k = IoErrorKind.connectionAborted then
      match transport 1 with
      | SendOutcome.ok s => some s
      | SendOutcome.err _ => none
    else none
  | SendOutcome.err _ => none

/-- Two send outcomes that differ at most in the HTTP status code of a
delivered stream. -/
def same_body : SendOutcome → SendOutcome → Prop
  | SendOutcome.ok r₁, SendOutcome.ok r₂ => r₁.body = r₂.body
  | SendOutcome.err e₁, SendOutcome.err e₂ => e₁ = e₂
  | _, _ => False

/-- The record of one POST of this request as `send_request` performs it:
the client's URL, content-type JSON plus the configured bearer token, and
the serialized request bytes. -/
def first_sent (c : Client) (ser : Serializer) (request : Request) : SentRecord :=
  { url := c.url, headers := { contentTypeJson := true, bearer := c.token },
    body := ser request }

/-- A tiny concrete request used by the witnesses. -/
def ex_request : Request :=
  { method := "m", params := Json.null, id := Json.num 1, jsonrpc := some "2.0" }

/-- A tiny concrete HTTP stream used by the witnesses. -/
def ex_stream : HttpResponse :=
  { status := 200, body := [2] }

/-- A concrete serializer used by the witnesses. -/
def ex_ser : Serializer :=
  fun _ => [0]

/-- A concrete transport whose every attempt succeeds with `ex_stream`. -/
def ex_transport : Transport :=
  fun _ => SendOutcome.ok ex_stream

/-- A concrete response with a chosen id and version marker and a
well-formed result payload. -/
def ex_response (idv : Int) (ver : Option String) : Response :=
  { id := Json.num idv, jsonrpc := ver, result := some (Json.num 42),
    error := none }

/-- A concrete deserializer that parses every body as `ex_response idv ver`
with nothing left on the stream. -/
def ex_deser (idv : Int) (ver : Option String) : Deserializer :=
  fun _ => some (ex_response idv ver, [])

/-- A transport whose first attempt fails with a broken pipe and whose
retry fails with a non-I/O hyper error. -/
def ex_transport_transient : Transport :=
  fun n =>
    if n = 0 then SendOutcome.err (HyperError.io IoErrorKind.brokenPipe)
    else SendOutcome.err (HyperError.other 3)

/-- A transport delivering the same body as `ex_transport` but with HTTP
status 500 instead of 200. -/
def ex_transport_status500 : Transport :=
  fun _ => SendOutcome.ok { status := 500, body := [2] }

/-- A deserializer that fails on every body. -/
def ex_deser_fail : Deserializer :=
  fun _ => none

lemma build_iter_nonce (c : Client) (name : String) (params : Json) (k : Nat)
    (hc : c.nonce < 2 ^ 64) :
    (build_iter c name params k).1.nonce = (c.nonce + k) % 2 ^ 64 := by
  induction k with
  | zero => simp [build_iter]; omega
  | succ k ih =>
    simp only [build_iter, Client.build_request, ih]
    omega

lemma send_request_reaches_stream (c : Client) (ser : Serializer)
    (deser : Deserializer) (transport : Transport) (request : Request)
    (s : HttpResponse) (hs : received_stream transport = some s) :
    ∃ t, c.send_request ser deser transport request =
      read_and_validate deser request s t := by
  unfold received_stream at hs
  unfold Client.send_request
  match h0 : transport 0 with
  | SendOutcome.ok s0 =>
    rw [h0] at hs
    simp only [Option.some.injEq] at hs
    subst hs
    exact ⟨_, rfl⟩
  | SendOutcome.err (HyperError.io k) =>
    rw [h0] at hs
    by_cases hk : k = IoErrorKind.brokenPipe ∨ k = IoErrorKind.connectionAborted
    · simp only [hk, if_true] at hs ⊢
      match h1 : transport 1 with
      | SendOutcome.ok s1 =>
        rw [h1] at hs
        simp only [Option.some.injEq] at hs
        subst hs
        exact ⟨_, rfl⟩
      | SendOutcome.err e2 =>
        rw [h1] at hs
        simp at hs
    · simp [hk] at hs
  | SendOutcome.err (HyperError.other code) =>
    rw [h0] at hs
    simp at hs

lemma Client.new_nonce (url : String) (token : Option String) :
    (Client.new url token).nonce = 0 :=
  rfl

lemma Client.last_nonce_eq (c : Client) : c.last_nonce = c.nonce :=
  rfl

lemma build_iter_ids (url : String) (token : Option String) (name : String)
    (params : Json) (k : Nat) :
    k < 2 ^ 64 →
    (build_iter (Client.new url token) name params k).2 =
      (List.range k).map (fun (i : Nat) => Json.num ((i : Int) + 1)) := by
  induction k with
  | zero => intro _; simp [build_iter]
  | succ k ih =>
    intro hk
    have hk' : k < 2 ^ 64 := Nat.lt_of_succ_lt hk
    have hn : (build_iter (Client.new url token) name params k).1.nonce = k := by
      have h := build_iter_nonce (Client.new url token) name params k
        (by rw [Client.new_nonce]; positivity)
      rw [Client.new_nonce] at h
      rw [h]
      omega
    simp only [build_iter, Client.build_request, ih hk', List.range_succ,
      List.map_append, List.map_cons, List.map_nil, hn]
    have hmod : (k + 1) % 2 ^ 64 = k + 1 := Nat.mod_eq_of_lt hk
    rw [hmod]
    push_cast
    ring_nf

lemma read_and_validate_sent (deser : Deserializer) (request : Request)
    (s : HttpResponse) (t : List SentRecord) :
    (read_and_validate deser request s t).sent = t := by
  unfold read_and_validate
  cases deser s.body with
  | none => rfl
  | some pr =>
    obtain ⟨response, rest⟩ := pr
    dsimp only
    split
    · rfl
    · split <;> rfl

lemma read_and_validate_drained (deser : Deserializer) (request : Request)
    (s : HttpResponse) (t : List SentRecord) :
    (read_and_validate deser request s t).drained = (deser s.body).isSome := by
  unfold read_and_validate
  cases deser s.body with
  | none => rfl
  | some pr =>
    obtain ⟨response, rest⟩ := pr
    dsimp only
    split
    · rfl
    · split <;> rfl

lemma read_and_validate_result (deser : Deserializer) (request : Request)
    (s : HttpResponse) (t : List SentRecord) (response : Response)
    (rest : List Nat) (hd : deser s.body = some (response, rest)) :
    (read_and_validate deser request s t).result =
      if response.jsonrpc ≠ none ∧ response.jsonrpc ≠ some "2.0" then
        Except.error Error.versionMismatch
      else if response.id ≠ request.id then
        Except.error Error.nonceMismatch
      else
        Except.ok response := by
  unfold read_and_validate
  rw [hd]
  dsimp only
  by_cases h1 : response.jsonrpc ≠ none ∧ response.jsonrpc ≠ some "2.0"
  · rw [if_pos h1, if_pos h1]
  · rw [if_neg h1, if_neg h1]
    by_cases h2 : response.id ≠ request.id
    · rw [if_pos h2, if_pos h2]
    · rw [if_neg h2, if_neg h2]

lemma read_and_validate_fail (deser : Deserializer) (request : Request)
    (s : HttpResponse) (t : List SentRecord) (hd : deser s.body = none) :
    read_and_validate deser request s t =
      { result := Except.error Error.json, sent := t, drained := false } := by
  unfold read_and_validate
  rw [hd]

lemma send_request_first_ok (c : Client) (ser : Serializer)
    (deser : Deserializer) (transport : Transport) (request : Request)
    (s : HttpResponse) (h0 : transport 0 = SendOutcome.ok s) :
    c.send_request ser deser transport request =
      read_and_validate deser request s [first_sent c ser request] := by
  unfold Client.send_request first_sent
  rw [h0]

lemma send_request_transient_then_ok (c : Client) (ser : Serializer)
    (deser : Deserializer) (transport : Transport) (request : Request)
    (k : IoErrorKind) (s : HttpResponse)
    (hk : k = IoErrorKind.brokenPipe ∨ k = IoErrorKind.connectionAborted)
    (h0 : transport 0 = SendOutcome.err (HyperError.io k))
    (h1 : transport 1 = SendOutcome.ok s) :
    c.send_request ser deser transport request =
      read_and_validate deser request s
        [first_sent c ser request, first_sent c ser request] := by
  unfold Client.send_request first_sent
  rw [h0]
  dsimp only
  rw [if_pos hk, h1]

lemma send_request_transient_then_err (c : Client) (ser : Serializer)
    (deser : Deserializer) (transport : Transport) (request : Request)
    (k : IoErrorKind) (e2 : HyperError)
    (hk : k = IoErrorKind.brokenPipe ∨ k = IoErrorKind.connectionAborted)
    (h0 : transport 0 = SendOutcome.err (HyperError.io k))
    (h1 : transport 1 = SendOutcome.err e2) :
    c.send_request ser deser transport request =
      { result := Except.error (Error.hyper e2),
        sent := [first_sent c ser request, first_sent c ser request],
        drained := false } := by
  unfold Client.send_request first_sent
  rw [h0]
  dsimp only
  rw [if_pos hk, h1]

lemma send_request_io_not_transient (c : Client) (ser : Serializer)
    (deser : Deserializer) (transport : Transport) (request : Request)
    (k : IoErrorKind)
    (hk : ¬ (k = IoErrorKind.brokenPipe ∨ k = IoErrorKind.connectionAborted))
    (h0 : transport 0 = SendOutcome.err (HyperError.io k)) :
    c.send_request ser deser transport request =
      { result := Except.error (Error.hyper (HyperError.io k)),
        sent := [first_sent c ser request], drained := false } := by
  unfold Client.send_request first_sent
  rw [h0]
  dsimp only
  rw [if_neg hk]

lemma send_request_err_other (c : Client) (ser : Serializer)
    (deser : Deserializer) (transport : Transport) (request : Request)
    (m : Nat) (h0 : transport 0 = SendOutcome.err (HyperError.other m)) :
    c.send_request ser deser transport request =
      { result := Except.error (Error.hyper (HyperError.other m)),
        sent := [first_sent c ser request], drained := false } := by
  unfold Client.send_request first_sent
  rw [h0]

/-- C4: `build_request` returns a `Request` whose method is the given
name, whose params is the given JSON value verbatim, whose id is the
nonce value after the increment, and whose jsonrpc marker is the fixed
string "2.0"; the operation is total (cannot fail). -/
theorem build_request_fields (c : Client) (name : String) (params : Json) :
    ((c.build_request name params).2.method = name) ∧
    ((c.build_request name params).2.params = params) ∧
    ((c.build_request name params).2.id =
      Json.num (((c.build_request name params).1.nonce : Nat) : Int)) ∧
    ((c.build_request name params).2.jsonrpc = some "2.0") := by
  simp [Client.build_request]

/-- C3 (amended with the bound k < 2^64 forced by the wrap of the u64
counter): on a fresh client `last_nonce` is 0; after k builds the ids
issued are exactly 1, 2, ..., k in order, and `last_nonce` is k. -/
theorem build_request_id_sequence (url : String) (token : Option String)
    (name : String) (params : Json) (k : Nat) (hk : k < 2 ^ 64) :
    (Client.new url token).last_nonce = 0 ∧
    (build_iter (Client.new url token) name params k).2 =
      (List.range k).map (fun (i : Nat) => Json.num ((i : Int) + 1)) ∧
    (build_iter (Client.new url token) name params k).1.last_nonce = k := by
  refine ⟨rfl, build_iter_ids url token name params k hk, ?_⟩
  have hn := build_iter_nonce (Client.new url token) name params k
    (by rw [Client.new_nonce]; positivity)
  rw [Client.new_nonce] at hn
  rw [Client.last_nonce_eq, hn]
  omega

/-- Witness for C3 at k = 2 on a fresh client. -/
theorem build_request_id_sequence_witness :
    (build_iter (Client.new "u" none) "m" Json.null 2).2 =
      [Json.num 1, Json.num 2] ∧
    (build_iter (Client.new "u" none) "m" Json.null 2).1.last_nonce = 2 := by
  have h := build_request_id_sequence "u" none "m" Json.null 2 (by norm_num)
  exact ⟨by rw [h.2.1]; rfl, h.2.2⟩

/-- Counterexample to C3 as stated for every k: at k = 2^64 the u64
counter has wrapped, so `last_nonce` is 0, not 2^64. -/
theorem build_request_id_sequence_unbounded_false :
    ¬ ((build_iter (Client.new "localhost" none) "test" Json.null
        (2 ^ 64)).1.last_nonce = 2 ^ 64) := by
  intro hcon
  rw [Client.last_nonce_eq] at hcon
  rw [build_iter_nonce _ _ _ _ (by rw [Client.new_nonce]; positivity)] at hcon
  rw [Client.new_nonce] at hcon
  omega

/-- C10: the nonce is a u64, incremented modulo 2^64 by each
`build_request`; below the wrap point the next issued id is the
successor, and at nonce 2^64 − 1 the counter wraps to 0, so the
never-reused-id guarantee needs fewer than 2^64 builds. -/
theorem nonce_is_u64_mod_increment (c : Client) (name : String) (params : Json) :
    ((c.build_request name params).1.nonce = (c.nonce + 1) % 2 ^ 64) ∧
    (c.nonce < 2 ^ 64 - 1 →
      (c.build_request name params).2.id = Json.num ((c.nonce : Int) + 1) ∧
      (c.build_request name params).1.nonce = c.nonce + 1) ∧
    (c.nonce = 2 ^ 64 - 1 → (c.build_request name params).1.nonce = 0) := by
  refine ⟨rfl, fun h => ?_, fun h => ?_⟩
  · have hmod : (c.nonce + 1) % 2 ^ 64 = c.nonce + 1 := by omega
    constructor
    · simp only [Client.build_request, hmod]
      push_cast
      ring_nf
    · simp only [Client.build_request, hmod]
  · have hr : (c.build_request name params).1.nonce = (c.nonce + 1) % 2 ^ 64 := rfl
    rw [hr, h]
    norm_num

/-- Witness for C10: increment below the wrap point and at it. -/
theorem nonce_is_u64_mod_increment_witness :
    (({ url := "u", token := none, nonce := 5 } : Client).build_request "m"
      Json.null).1.nonce = 6 ∧
    (({ url := "u", token := none, nonce := 2 ^ 64 - 1 } : Client).build_request
      "m" Json.null).1.nonce = 0 := by
  refine ⟨((nonce_is_u64_mod_increment
      { url := "u", token := none, nonce := 5 } "m" Json.null).2.1
      (by norm_num)).2,
    (nonce_is_u64_mod_increment
      { url := "u", token := none, nonce := 2 ^ 64 - 1 } "m" Json.null).2.2
      (by norm_num)⟩

/-- C5: when a response envelope is obtained, a present jsonrpc marker
different from "2.0" is rejected with VersionMismatch, while an absent
marker passes the version check (and, with a matching id, the response
is accepted). -/
theorem send_request_version_check (c : Client) (ser : Serializer)
    (deser : Deserializer) (transport : Transport) (request : Request)
    (s : HttpResponse) (response : Response) (rest : List Nat)
    (hs : received_stream transport = some s)
    (hd : deser s.body = some (response, rest)) :
    (∀ v, response.jsonrpc = some v → v ≠ "2.0" →
      (c.send_request ser deser transport request).result =
        Except.error Error.versionMismatch) ∧
    (response.jsonrpc = none →
      (c.send_request ser deser transport request).result ≠
        Except.error Error.versionMismatch) ∧
    (response.jsonrpc = none → response.id = request.id →
      (c.send_request ser deser transport request).result =
        Except.ok response) := by
  obtain ⟨t, ht⟩ := send_request_reaches_stream c ser deser transport request s hs
  rw [ht, read_and_validate_result deser request s t response rest hd]
  refine ⟨?_, ?_, ?_⟩
  · intro v hv hne
    rw [if_pos ⟨by simp [hv], by simp [hv, hne]⟩]
  · intro hnone
    rw [if_neg (by simp [hnone])]
    split <;> simp
  · intro hnone hid
    rw [if_neg (by simp [hnone]), if_neg (by simp [hid])]

/-- Witness for C5: a response with marker "1.0" is rejected with
VersionMismatch. -/
theorem send_request_version_check_witness :
    ((Client.new "u" none).send_request ex_ser (ex_deser 1 (some "1.0"))
      ex_transport ex_request).result = Except.error Error.versionMismatch := by
  exact (send_request_version_check (Client.new "u" none) ex_ser
    (ex_deser 1 (some "1.0")) ex_transport ex_request ex_stream
    (ex_response 1 (some "1.0")) [] rfl rfl).1 "1.0" rfl (by decide)

/-- C6: when a response envelope passes the version check but its id
differs from the request's id, the call fails with NonceMismatch, even
when the result payload is well-formed (the result field is arbitrary
here). -/
theorem send_request_nonce_check (c : Client) (ser : Serializer)
    (deser : Deserializer) (transport : Transport) (request : Request)
    (s : HttpResponse) (response : Response) (rest : List Nat)
    (hs : received_stream transport = some s)
    (hd : deser s.body = some (response, rest))
    (hver : response.jsonrpc = none ∨ response.jsonrpc = some "2.0")
    (hid : response.id ≠ request.id) :
    (c.send_request ser deser transport request).result =
      Except.error Error.nonceMismatch := by
  obtain ⟨t, ht⟩ := send_request_reaches_stream c ser deser transport request s hs
  rw [ht, read_and_validate_result deser request s t response rest hd]
  rcases hver with hver | hver
  · rw [if_neg (by simp [hver]), if_pos hid]
  · rw [if_neg (by simp [hver]), if_pos hid]

/-- Witness for C6: a response with a well-formed result but id 2 for a
request with id 1 is rejected with NonceMismatch. -/
theorem send_request_nonce_check_witness :
    ((Client.new "u" none).send_request ex_ser (ex_deser 2 (some "2.0"))
      ex_transport ex_request).result = Except.error Error.nonceMismatch := by
  exact send_request_nonce_check (Client.new "u" none) ex_ser
    (ex_deser 2 (some "2.0")) ex_transport ex_request ex_stream
    (ex_response 2 (some "2.0")) [] rfl rfl (Or.inr rfl) (by decide)

/-- C7: the version check comes before the id check: a response whose
marker is present and not "2.0" and whose id also differs from the
request's id is rejected with VersionMismatch, not NonceMismatch. -/
theorem send_request_version_before_nonce (c : Client) (ser : Serializer)
    (deser : Deserializer) (transport : Transport) (request : Request)
    (s : HttpResponse) (response : Response) (rest : List Nat) (v : String)
    (hs : received_stream transport = some s)
    (hd : deser s.body = some (response, rest))
    (hv : response.jsonrpc = some v) (hvne : v ≠ "2.0")
    (hid : response.id ≠ request.id) :
    (c.send_request ser deser transport request).result =
      Except.error Error.versionMismatch ∧
    (c.send_request ser deser transport request).result ≠
      Except.error Error.nonceMismatch := by
  obtain ⟨t, ht⟩ := send_request_reaches_stream c ser deser transport request s hs
  rw [ht, read_and_validate_result deser request s t response rest hd]
  rw [if_pos ⟨by simp [hv], by simp [hv, hvne]⟩]
  exact ⟨rfl, by simp⟩

/-- Witness for C7: version "1.0" and id 2 against a request with id 1
yields VersionMismatch, not NonceMismatch. -/
theorem send_request_version_before_nonce_witness :
    ((Client.new "u" none).send_request ex_ser (ex_deser 2 (some "1.0"))
      ex_transport ex_request).result = Except.error Error.versionMismatch ∧
    ((Client.new "u" none).send_request ex_ser (ex_deser 2 (some "1.0"))
      ex_transport ex_request).result ≠ Except.error Error.nonceMismatch := by
  exact send_request_version_before_nonce (Client.new "u" none) ex_ser
    (ex_deser 2 (some "1.0")) ex_transport ex_request ex_stream
    (ex_response 2 (some "1.0")) [] "1.0" rfl rfl rfl (by decide) (by decide)

/-- C1: the sends `send_request` performs: every send posts the identical
serialized bytes and headers (so the same request id; the nonce is not
consulted); a first-attempt I/O failure of kind broken-pipe or
connection-aborted triggers exactly one retry, whose failure is returned
as a Hyper (Transport) error; any other first-attempt failure is
returned at once with no retry; there are never more than two sends. -/
theorem send_request_retry_once (c : Client) (ser : Serializer)
    (deser : Deserializer) (transport : Transport) (request : Request) :
    ((c.send_request ser deser transport request).sent.length ≤ 2) ∧
    (∀ r ∈ (c.send_request ser deser transport request).sent,
      r = first_sent c ser request) ∧
    (∀ k, transport 0 = SendOutcome.err (HyperError.io k) →
      (k = IoErrorKind.brokenPipe ∨ k = IoErrorKind.connectionAborted) →
      (c.send_request ser deser transport request).sent.length = 2 ∧
      (∀ e2, transport 1 = SendOutcome.err e2 →
        (c.send_request ser deser transport request).result =
          Except.error (Error.hyper e2))) ∧
    (∀ e, transport 0 = SendOutcome.err e →
      (∀ k, e = HyperError.io k →
        ¬ (k = IoErrorKind.brokenPipe ∨ k = IoErrorKind.connectionAborted)) →
      (c.send_request ser deser transport request).result =
        Except.error (Error.hyper e) ∧
      (c.send_request ser deser transport request).sent.length = 1) := by
  have hsent : ((c.send_request ser deser transport request).sent.length ≤ 2) ∧
      (∀ r ∈ (c.send_request ser deser transport request).sent,
        r = first_sent c ser request) := by
    cases h0 : transport 0 with
    | ok s =>
      rw [send_request_first_ok c ser deser transport request s h0,
        read_and_validate_sent]
      simp
    | err e =>
      cases e with
      | io k =>
        by_cases hk : k = IoErrorKind.brokenPipe ∨ k = IoErrorKind.connectionAborted
        · cases h1 : transport 1 with
          | ok s =>
            rw [send_request_transient_then_ok c ser deser transport request
              k s hk h0 h1, read_and_validate_sent]
            simp
          | err e2 =>
            rw [send_request_transient_then_err c ser deser transport request
              k e2 hk h0 h1]
            simp
        · rw [send_request_io_not_transient c ser deser transport request k hk h0]
          simp
      | other m =>
        rw [send_request_err_other c ser deser transport request m h0]
        simp
  refine ⟨hsent.1, hsent.2, ?_, ?_⟩
  · intro k h0 hk
    cases h1 : transport 1 with
    | ok s =>
      rw [send_request_transient_then_ok c ser deser transport request
        k s hk h0 h1, read_and_validate_sent]
      refine ⟨rfl, ?_⟩
      intro e2 h1c
      cases h1c
    | err e2 =>
      rw [send_request_transient_then_err c ser deser transport request
        k e2 hk h0 h1]
      refine ⟨rfl, ?_⟩
      intro e3 h1c
      cases h1c
      rfl
  · intro e h0 hnk
    cases e with
    | io k =>
      have hk := hnk k rfl
      rw [send_request_io_not_transient c ser deser transport request k hk h0]
      exact ⟨rfl, rfl⟩
    | other m =>
      rw [send_request_err_other c ser deser transport request m h0]
      exact ⟨rfl, rfl⟩

/-- Witness for C1: on a broken-pipe first attempt, exactly two identical
sends happen and the retry's failure is surfaced as a Hyper error. -/
theorem send_request_retry_once_witness :
    ((Client.new "u" none).send_request ex_ser (ex_deser 1 (some "2.0"))
      ex_transport_transient ex_request).sent.length = 2 ∧
    ((Client.new "u" none).send_request ex_ser (ex_deser 1 (some "2.0"))
      ex_transport_transient ex_request).result =
      Except.error (Error.hyper (HyperError.other 3)) := by
  have h := (send_request_retry_once (Client.new "u" none) ex_ser
    (ex_deser 1 (some "2.0")) ex_transport_transient ex_request).2.2.1
    IoErrorKind.brokenPipe rfl (Or.inl rfl)
  exact ⟨h.1, h.2 (HyperError.other 3) rfl⟩

/-- C2: `do_rpc` increments the shared nonce exactly once — the client
state after `do_rpc` is exactly the state after its single
`build_request`, whatever the transport did — and `send_request` neither
reads nor writes the nonce: its outcome depends only on the client's URL
and token (and it returns no client state at all). -/
theorem do_rpc_nonce_once (c : Client) (ser : Serializer)
    (deser : Deserializer) (transport : Transport) (name : String)
    (args : Json) :
    ((c.do_rpc ser deser transport name args).1.nonce =
      (c.nonce + 1) % 2 ^ 64) ∧
    ((c.do_rpc ser deser transport name args).1 =
      (c.build_request name args).1) ∧
    (∀ (c1 c2 : Client) (req : Request), c1.url = c2.url →
      c1.token = c2.token →
      c1.send_request ser deser transport req =
        c2.send_request ser deser transport req) := by
  refine ⟨?_, ?_, ?_⟩
  · unfold Client.do_rpc
    dsimp only
    split <;> rfl
  · unfold Client.do_rpc
    dsimp only
    split <;> rfl
  · intro c1 c2 req hu ht
    unfold Client.send_request
    rw [hu, ht]

/-- Witness for C2: a fresh client's nonce is 1 after `do_rpc`, and two
clients differing only in their nonce get identical `send_request`
outcomes. -/
theorem do_rpc_nonce_once_witness :
    ((Client.new "u" none).do_rpc ex_ser (ex_deser 1 (some "2.0"))
      ex_transport "m" Json.null).1.nonce = 1 ∧
    ({ url := "u", token := none, nonce := 0 } : Client).send_request ex_ser
      (ex_deser 1 (some "2.0")) ex_transport ex_request =
    ({ url := "u", token := none, nonce := 99 } : Client).send_request ex_ser
      (ex_deser 1 (some "2.0")) ex_transport ex_request := by
  constructor
  · rw [(do_rpc_nonce_once (Client.new "u" none) ex_ser
      (ex_deser 1 (some "2.0")) ex_transport "m" Json.null).1,
      Client.new_nonce]
    norm_num
  · exact (do_rpc_nonce_once (Client.new "u" none) ex_ser
      (ex_deser 1 (some "2.0")) ex_transport "m" Json.null).2.2
      { url := "u", token := none, nonce := 0 }
      { url := "u", token := none, nonce := 99 } ex_request rfl rfl

/-- C8: the HTTP status code is ignored: two runs of `send_request` whose
transports deliver byte-identical bodies (and identical errors), however
the status codes differ, return the same outcome. -/
theorem send_request_status_independent (c : Client) (ser : Serializer)
    (deser : Deserializer) (t1 t2 : Transport) (request : Request)
    (h : ∀ n, same_body (t1 n) (t2 n)) :
    (c.send_request ser deser t1 request).result =
      (c.send_request ser deser t2 request).result := by
  have h0 := h 0
  have h1 := h 1
  cases hA : t1 0 with
  | ok s1 =>
    rw [hA] at h0
    cases hB : t2 0 with
    | ok s2 =>
      rw [hB] at h0
      have hb : s1.body = s2.body := h0
      rw [send_request_first_ok c ser deser t1 request s1 hA,
        send_request_first_ok c ser deser t2 request s2 hB]
      unfold read_and_validate
      rw [hb]
    | err e2 =>
      rw [hB] at h0
      exact absurd h0 (by simp [same_body])
  | err e1 =>
    rw [hA] at h0
    cases hB : t2 0 with
    | ok s2 =>
      rw [hB] at h0
      exact absurd h0 (by simp [same_body])
    | err e2 =>
      rw [hB] at h0
      have he : e1 = e2 := h0
      subst he
      cases e1 with
      | io k =>
        by_cases hk : k = IoErrorKind.brokenPipe ∨ k = IoErrorKind.connectionAborted
        · cases hC : t1 1 with
          | ok s1 =>
            rw [hC] at h1
            cases hD : t2 1 with
            | ok s2 =>
              rw [hD] at h1
              have hb : s1.body = s2.body := h1
              rw [send_request_transient_then_ok c ser deser t1 request
                k s1 hk hA hC,
                send_request_transient_then_ok c ser deser t2 request
                k s2 hk hB hD]
              unfold read_and_validate
              rw [hb]
            | err e2 =>
              rw [hD] at h1
              exact absurd h1 (by simp [same_body])
          | err e2 =>
            rw [hC] at h1
            cases hD : t2 1 with
            | ok s2 =>
              rw [hD] at h1
              exact absurd h1 (by simp [same_body])
            | err e3 =>
              rw [hD] at h1
              have he2 : e2 = e3 := h1
              subst he2
              rw [send_request_transient_then_err c ser deser t1 request
                k e2 hk hA hC,
                send_request_transient_then_err c ser deser t2 request
                k e2 hk hB hD]
        · rw [send_request_io_not_transient c ser deser t1 request k hk hA,
            send_request_io_not_transient c ser deser t2 request k hk hB]
      | other m =>
        rw [send_request_err_other c ser deser t1 request m hA,
          send_request_err_other c ser deser t2 request m hB]

/-- Witness for C8: status 200 and status 500 with identical bodies give
the same outcome. -/
theorem send_request_status_independent_witness :
    ((Client.new "u" none).send_request ex_ser (ex_deser 1 (some "2.0"))
      ex_transport ex_request).result =
    ((Client.new "u" none).send_request ex_ser (ex_deser 1 (some "2.0"))
      ex_transport_status500 ex_request).result := by
  exact send_request_status_independent (Client.new "u" none) ex_ser
    (ex_deser 1 (some "2.0")) ex_transport ex_transport_status500 ex_request
    (fun n => rfl)

/-- C9: whenever a stream is obtained, the drain of the remaining bytes
happens exactly when the envelope deserialized successfully — so the
stream is drained even when the validation then fails with
VersionMismatch or NonceMismatch, and it is not drained when the
envelope itself failed to parse (in which case the error is the serde
one). -/
theorem send_request_drain_policy (c : Client) (ser : Serializer)
    (deser : Deserializer) (transport : Transport) (request : Request)
    (s : HttpResponse) (hs : received_stream transport = some s) :
    (deser s.body = none →
      (c.send_request ser deser transport request).drained = false ∧
      (c.send_request ser deser transport request).result =
        Except.error Error.json) ∧
    (∀ response rest, deser s.body = some (response, rest) →
      (c.send_request ser deser transport request).drained = true) := by
  obtain ⟨t, ht⟩ := send_request_reaches_stream c ser deser transport request s hs
  constructor
  · intro hd
    rw [ht, read_and_validate_fail deser request s t hd]
    exact ⟨rfl, rfl⟩
  · intro response rest hd
    rw [ht, read_and_validate_drained, hd]
    rfl

/-- Witness for C9: an unparseable body leaves the stream undrained and
yields the serde error, while a parsed envelope that then fails the
version check has still drained the stream. -/
theorem send_request_drain_policy_witness :
    (((Client.new "u" none).send_request ex_ser ex_deser_fail ex_transport
      ex_request).drained = false ∧
    ((Client.new "u" none).send_request ex_ser ex_deser_fail ex_transport
      ex_request).result = Except.error Error.json) ∧
    ((Client.new "u" none).send_request ex_ser (ex_deser 1 (some "1.0"))
      ex_transport ex_request).drained = true := by
  constructor
  · exact (send_request_drain_policy (Client.new "u" none) ex_ser
      ex_deser_fail ex_transport ex_request ex_stream rfl).1 rfl
  · exact (send_request_drain_policy (Client.new "u" none) ex_ser
      (ex_deser 1 (some "1.0")) ex_transport ex_request ex_stream rfl).2
      (ex_response 1 (some "1.0")) [] rfl

end JsonRpc
